import Mathlib

/-!
# LunatiX voice-enabled chat session manager: formal model

A shallow embedding of the two client-side components of the LunatiX
insurance-claims app that carry real state-machine content:

* the **Conversation Pipeline** (`ChatbotPage.tsx`: `appendMessage`,
  `sendMessage`, the `loadingRef` single-flight flag), and
* the **Voice Session Controller** (`useVoiceChat` hook: `start`, `stop`,
  and the platform callbacks `onstart` / `onend` / `onerror` / `onresult`).

The execution model is single-threaded and event-driven: each handler runs
to completion, so every handler is embedded as a pure function from state
(plus the external outcomes it awaits) to state together with the list of
observable outputs it produces (backend calls, transcription emissions,
platform start/stop requests).  JavaScript exceptions caught by the code
are represented by explicit boolean outcome parameters; an async function
that never throws to its caller is embedded as a total function.
-/

set_option autoImplicit false
set_option maxRecDepth 4000

namespace LunatiX

/-- Model of JavaScript `String.prototype.trim`: strip leading and trailing
whitespace characters (restricted to ASCII whitespace, which covers every
input the app produces). -/
def jsTrim (s : String) : String :=
  ⟨((s.data.dropWhile Char.isWhitespace).reverse.dropWhile Char.isWhitespace).reverse⟩

/-! ## Conversation Pipeline (`ChatbotPage.tsx`, duplicate-guarded variant) -/

/-- The `role` field of a transcript entry. -/
inductive Role where
  | user
  | assistant
deriving DecidableEq, Repr

/-- One transcript entry (the page's `Message` interface): `role`,
`content`, and an optional `sources` list (present only on assistant
entries built from a backend response). -/
structure Msg where
  role : Role
  content : String
  sources : Option (List String)
deriving DecidableEq, Repr

/-- The backend's response shape used by the page: `response.response`
(the reply text) and `response.sources` (optional citation labels). -/
structure ChatResponse where
  response : String
  sources : Option (List String)
deriving DecidableEq, Repr

/-- One outbound request issued through `chatbotApi.sendMessage(message,
sessionId)`, i.e. a POST body `{ message, session_id }`. -/
structure BackendCall where
  message : String
  session_id : String
deriving DecidableEq, Repr

/-- The page state relevant to the pipeline: the `messages` transcript,
the `input` field, the `loadingRef` single-flight flag (the `loading`
React state mirrors it and is not modelled separately), and the
session-constant `sessionId`. -/
structure ChatState where
  messages : List Msg
  input : String
  loading : Bool
  sessionId : String
deriving DecidableEq, Repr

/-- The functional update performed inside `appendMessage`'s
`setMessages` callback: if the previous last entry has the same role and
content, return the list unchanged, else append a new sourceless entry. -/
def appendGuard (msgs : List Msg) (role : Role) (content : String) : List Msg :=
  match msgs.getLast? with
  | some last =>
      if last.role = role ∧ last.content = content then msgs
      else msgs ++ [⟨role, content, none⟩]
  | none => msgs ++ [⟨role, content, none⟩]

/-- `appendMessage(role, content)` from `ChatbotPage.tsx`. -/
def appendMessage (st : ChatState) (role : Role) (content : String) : ChatState :=
  { st with messages := appendGuard st.messages role content }

/-- The synchronous part of `sendMessage(messageText)` up to the `await`:
trim, early-return on empty or outstanding, clear the input, append the
`user` entry, raise the single-flight flag and issue the backend call.
Returns the new state and the list of backend calls issued (empty on the
early return). -/
def sendMessageStart (st : ChatState) (messageText : String) :
    ChatState × List BackendCall :=
  let trimmed := jsTrim messageText
  if trimmed = "" ∨ st.loading = true then (st, [])
  else
    let st1 := { st with input := "" }
    let st2 := appendMessage st1 Role.user trimmed
    let st3 := { st2 with loading := true }
    (st3, [⟨trimmed, st.sessionId⟩])

/-- The fixed fallback assistant text appended when the backend call
rejects. -/
def fallbackText : String := "Sorry, I encountered an error. Please try again."

/-- The continuation of `sendMessage` after the awaited backend call
settles: on fulfilment (`some response`) append the assistant entry built
from `response.response` and `response.sources` (a plain `setMessages`
append, no duplicate guard); on rejection (`none`) append the fixed
fallback through `appendMessage`.  The `finally` block lowers the
single-flight flag in both cases. -/
def sendMessageResolve (st : ChatState) (result : Option ChatResponse) : ChatState :=
  match result with
  | some resp =>
      { st with
        messages := st.messages ++ [⟨Role.assistant, resp.response, resp.sources⟩]
        loading := false }
  | none =>
      { appendMessage st Role.assistant fallbackText with loading := false }

/-- The whole `sendMessage(messageText)` run, with the awaited backend
outcome supplied as `result` (`some response` for fulfilment, `none` for
rejection).  If the synchronous part early-returned, no backend call was
made and `result` is irrelevant. -/
def sendMessage (st : ChatState) (messageText : String) (result : Option ChatResponse) :
    ChatState × List BackendCall :=
  let p := sendMessageStart st messageText
  if p.2.isEmpty then p else (sendMessageResolve p.1 result, p.2)

/-- The page's initial greeting entry. -/
def greeting : Msg :=
  ⟨Role.assistant,
   "Hello! I\x27m your insurance assistant. I can help explain insurance terms, answer questions about the claims process, and guide you through your policy. What would you like to know?",
   none⟩

/-- The page's initial state: the greeting transcript, empty input, no
outstanding request. -/
def initState (sid : String) : ChatState :=
  ⟨[greeting], "", false, sid⟩

/-- The transcript entry a settled backend outcome contributes. -/
def respMsg : Option ChatResponse → Msg
  | some resp => ⟨Role.assistant, resp.response, resp.sources⟩
  | none => ⟨Role.assistant, fallbackText, none⟩

/-- States of the chat page reachable from its initial state through its
event handlers: a complete `sendMessage` run (submissions arriving while
the call is outstanding are early-returned no-ops inside `sendMessage`
itself, so they add no states), an assistant-side `appendMessage` (the
voice callback's non-user branch), and edits of the input field. -/
inductive Reachable (sid : String) : ChatState → Prop where
  | init : Reachable sid (initState sid)
  | submit (st : ChatState) (text : String) (result : Option ChatResponse) :
      Reachable sid st → Reachable sid (sendMessage st text result).1
  | note (st : ChatState) (text : String) :
      Reachable sid st → Reachable sid (appendMessage st Role.assistant text)
  | edit (st : ChatState) (s : String) :
      Reachable sid st → Reachable sid { st with input := s }

/-! ### Refined backend-outcome model

`sendMessage` above models the awaited call as rejected or fulfilled with
a well-shaped payload.  The axios client (`services/api.ts`, default
`validateStatus` and JSON handling) in fact rejects only on network
errors and non-success statuses; a success-status response is fulfilled
whatever its body, and the page then reads `response.response` and
`response.sources` off it — property reads that yield the JavaScript
`undefined` when the payload is malformed.  The definitions below embed
the same `sendMessage` source with that settlement behaviour represented
exactly; `sendMessageJS_refines` proves the coarse model is its
restriction to rejected and well-shaped outcomes. -/

/-- The parsed `data` of a fulfilled (success-status) backend response,
before any shape validation: each field is a JavaScript property read,
`none` standing for `undefined` (field missing, wrong shape, or a
non-JSON body parsed to a raw string). -/
structure ChatPayload where
  response : Option String
  sources : Option (List String)
deriving DecidableEq, Repr

/-- How the awaited `chatbotApi.sendMessage` promise settles: axios
rejects on network errors and non-success statuses, and fulfills every
success-status response with its payload, malformed or not. -/
inductive BackendOutcome where
  | rejected
  | fulfilled (payload : ChatPayload)
deriving DecidableEq, Repr

/-- A transcript entry as the page actually stores it: the success path
copies the payload fields verbatim, so `content` can be the JavaScript
`undefined` (`none`). -/
structure MsgJS where
  role : Role
  content : Option String
  sources : Option (List String)
deriving DecidableEq, Repr

/-- Page state over `MsgJS` transcripts. -/
structure ChatStateJS where
  messages : List MsgJS
  input : String
  loading : Bool
  sessionId : String
deriving DecidableEq, Repr

/-- `appendMessage`'s functional update over `MsgJS` transcripts: the
argument is a genuine string (both call sites pass one), and the `===`
comparison against a possibly-`undefined` previous content is equality
with `some content`. -/
def appendGuardJS (msgs : List MsgJS) (role : Role) (content : String) : List MsgJS :=
  match msgs.getLast? with
  | some last =>
      if last.role = role ∧ last.content = some content then msgs
      else msgs ++ [⟨role, some content, none⟩]
  | none => msgs ++ [⟨role, some content, none⟩]

/-- `appendMessage(role, content)` over the refined state. -/
def appendMessageJS (st : ChatStateJS) (role : Role) (content : String) : ChatStateJS :=
  { st with messages := appendGuardJS st.messages role content }

/-- The whole `sendMessage(messageText)` run over the refined settlement
model: identical source logic — early return, user append, backend call,
then either the success-path append of the payload fields verbatim
(`catch` does not run on a fulfilled call, malformed or not) or the
`catch` fallback append on rejection, with `finally` lowering the flag. -/
def sendMessageJS (st : ChatStateJS) (messageText : String) (outcome : BackendOutcome) :
    ChatStateJS × List BackendCall :=
  let trimmed := jsTrim messageText
  if trimmed = "" ∨ st.loading = true then (st, [])
  else
    let st1 := appendMessageJS { st with input := "" } Role.user trimmed
    let st2 := { st1 with loading := true }
    let final := match outcome with
      | BackendOutcome.fulfilled payload =>
          { st2 with
            messages := st2.messages ++ [⟨Role.assistant, payload.response, payload.sources⟩]
            loading := false }
      | BackendOutcome.rejected =>
          { appendMessageJS st2 Role.assistant fallbackText with loading := false }
    (final, [⟨trimmed, st.sessionId⟩])

/-- A well-shaped entry viewed in the refined transcript type. -/
def Msg.toJS (m : Msg) : MsgJS := ⟨m.role, some m.content, m.sources⟩

/-- A coarse-model state viewed in the refined state type. -/
def ChatState.toJS (st : ChatState) : ChatStateJS :=
  ⟨st.messages.map Msg.toJS, st.input, st.loading, st.sessionId⟩

/-- The settlement a coarse-model outcome stands for: `none` is a
rejection, `some resp` a fulfilled well-shaped payload. -/
def toOutcome : Option ChatResponse → BackendOutcome
  | some resp => BackendOutcome.fulfilled ⟨some resp.response, resp.sources⟩
  | none => BackendOutcome.rejected

/-! ### Pipeline lemmas -/

theorem appendGuard_of_ne (msgs : List Msg) (m : Msg) (role : Role) (c : String)
    (hlast : msgs.getLast? = some m) (hne : ¬(m.role = role ∧ m.content = c)) :
    appendGuard msgs role c = msgs ++ [⟨role, c, none⟩] := by
  simp [appendGuard, hlast, hne]

theorem appendGuard_of_eq (msgs : List Msg) (m : Msg) (role : Role) (c : String)
    (hlast : msgs.getLast? = some m) (hrole : m.role = role) (hc : m.content = c) :
    appendGuard msgs role c = msgs := by
  simp [appendGuard, hlast, hrole, hc]

/-- The transcript ends with an assistant entry. -/
def lastIsAssistant (msgs : List Msg) : Prop :=
  ∃ m, msgs.getLast? = some m ∧ m.role = Role.assistant

theorem sendMessage_dropped_empty (st : ChatState) (text : String)
    (result : Option ChatResponse) (h : jsTrim text = "") :
    sendMessage st text result = (st, []) := by
  simp [sendMessage, sendMessageStart, h]

theorem sendMessageStart_dropped_loading (st : ChatState) (text : String)
    (h : st.loading = true) :
    sendMessageStart st text = (st, []) := by
  simp [sendMessageStart, h]

theorem sendMessage_dropped_loading (st : ChatState) (text : String)
    (result : Option ChatResponse) (h : st.loading = true) :
    sendMessage st text result = (st, []) := by
  simp [sendMessage, sendMessageStart_dropped_loading st text h]

theorem sendMessageStart_run (st : ChatState) (text : String) (m : Msg)
    (hload : st.loading = false) (htrim : jsTrim text ≠ "")
    (hm : st.messages.getLast? = some m) (hrole : m.role = Role.assistant) :
    sendMessageStart st text =
      ({ st with
          input := ""
          loading := true
          messages := st.messages ++ [⟨Role.user, jsTrim text, none⟩] },
       [⟨jsTrim text, st.sessionId⟩]) := by
  have hne : ¬(m.role = Role.user ∧ m.content = jsTrim text) := by
    rintro ⟨h1, -⟩
    rw [hrole] at h1
    exact Role.noConfusion h1
  simp [sendMessageStart, htrim, hload, appendMessage,
        appendGuard_of_ne st.messages m Role.user (jsTrim text) hm hne]

theorem sendMessageResolve_success (st : ChatState) (resp : ChatResponse) :
    sendMessageResolve st (some resp) =
      { st with
        messages := st.messages ++ [⟨Role.assistant, resp.response, resp.sources⟩]
        loading := false } := rfl

theorem sendMessageResolve_after_user (st : ChatState) (m : Msg)
    (hm : st.messages.getLast? = some m) (hrole : m.role = Role.user) :
    sendMessageResolve st none =
      { st with
        messages := st.messages ++ [⟨Role.assistant, fallbackText, none⟩]
        loading := false } := by
  have hne : ¬(m.role = Role.assistant ∧ m.content = fallbackText) := by
    rintro ⟨h1, -⟩
    rw [hrole] at h1
    exact Role.noConfusion h1
  simp [sendMessageResolve, appendMessage,
        appendGuard_of_ne st.messages m Role.assistant fallbackText hm hne]

theorem sendMessage_run (st : ChatState) (text : String) (result : Option ChatResponse)
    (m : Msg) (hload : st.loading = false) (htrim : jsTrim text ≠ "")
    (hm : st.messages.getLast? = some m) (hrole : m.role = Role.assistant) :
    sendMessage st text result =
      ({ st with
          input := ""
          loading := false
          messages := st.messages ++ [⟨Role.user, jsTrim text, none⟩, respMsg result] },
       [⟨jsTrim text, st.sessionId⟩]) := by
  have hstart := sendMessageStart_run st text m hload htrim hm hrole
  have hcat : (st.messages ++ [Msg.mk Role.user (jsTrim text) none]).getLast? =
      some (Msg.mk Role.user (jsTrim text) none) := List.getLast?_concat _
  cases result with
  | some resp =>
      simp [sendMessage, hstart, sendMessageResolve_success, respMsg]
  | none =>
      have hres := sendMessageResolve_after_user
        { st with
            input := ""
            loading := true
            messages := st.messages ++ [Msg.mk Role.user (jsTrim text) none] }
        (Msg.mk Role.user (jsTrim text) none) hcat rfl
      simp [sendMessage, hstart, hres, respMsg]

theorem sendMessage_calls (st : ChatState) (text : String) (result : Option ChatResponse)
    (hload : st.loading = false) (htrim : jsTrim text ≠ "") :
    (sendMessage st text result).2 = [⟨jsTrim text, st.sessionId⟩] := by
  simp [sendMessage, sendMessageStart, hload, htrim]

theorem sendMessageResolve_loading (st : ChatState) (result : Option ChatResponse) :
    (sendMessageResolve st result).loading = false := by
  cases result <;> rfl

theorem sendMessageResolve_sessionId (st : ChatState) (result : Option ChatResponse) :
    (sendMessageResolve st result).sessionId = st.sessionId := by
  cases result <;> rfl

theorem lastIsAssistant_appendGuard (msgs : List Msg) (text : String)
    (h : lastIsAssistant msgs) :
    lastIsAssistant (appendGuard msgs Role.assistant text) := by
  obtain ⟨m, hm, hrole⟩ := h
  by_cases hc : m.content = text
  · rw [appendGuard_of_eq msgs m Role.assistant text hm hrole hc]
    exact ⟨m, hm, hrole⟩
  · rw [appendGuard_of_ne msgs m Role.assistant text hm (by rintro ⟨-, h2⟩; exact hc h2)]
    exact ⟨⟨Role.assistant, text, none⟩, List.getLast?_concat _, rfl⟩

/-- Invariant of the chat page: between event-handler turns no request is
outstanding, the session id is the creation-time one, and the transcript
ends with an assistant entry (the greeting initially; afterwards every
completed exchange ends with the success or fallback assistant append). -/
theorem reachable_inv {sid : String} {st : ChatState} (h : Reachable sid st) :
    st.loading = false ∧ st.sessionId = sid ∧ lastIsAssistant st.messages := by
  induction h with
  | init => exact ⟨rfl, rfl, greeting, rfl, rfl⟩
  | submit st text result _ ih =>
      obtain ⟨hload, hsid, m, hm, hrole⟩ := ih
      by_cases htrim : jsTrim text = ""
      · rw [sendMessage_dropped_empty st text result htrim]
        exact ⟨hload, hsid, m, hm, hrole⟩
      · rw [sendMessage_run st text result m hload htrim hm hrole]
        refine ⟨rfl, hsid, respMsg result, ?_, ?_⟩
        · rw [show st.messages ++ [⟨Role.user, jsTrim text, none⟩, respMsg result] =
              (st.messages ++ [⟨Role.user, jsTrim text, none⟩]) ++ [respMsg result] by
                simp]
          exact List.getLast?_concat _
        · cases result <;> rfl
  | note st text _ ih =>
      obtain ⟨hload, hsid, hlast⟩ := ih
      exact ⟨hload, hsid, lastIsAssistant_appendGuard st.messages text hlast⟩
  | edit st s _ ih => exact ih

theorem appendGuardJS_map (msgs : List Msg) (role : Role) (c : String) :
    appendGuardJS (msgs.map Msg.toJS) role c =
      (appendGuard msgs role c).map Msg.toJS := by
  cases hm : msgs.getLast? with
  | none =>
      have hjs : (msgs.map Msg.toJS).getLast? = none := by
        rw [List.getLast?_map, hm]
        rfl
      simp [appendGuardJS, appendGuard, hm, hjs, Msg.toJS]
  | some m =>
      have hjs : (msgs.map Msg.toJS).getLast? = some (Msg.toJS m) := by
        rw [List.getLast?_map, hm]
        rfl
      have hiff : ((Msg.toJS m).role = role ∧ (Msg.toJS m).content = some c) ↔
          (m.role = role ∧ m.content = c) := by
        simp [Msg.toJS]
      by_cases hcond : m.role = role ∧ m.content = c
      · simp [appendGuardJS, appendGuard, hm, hjs, hiff, hcond]
      · simp [appendGuardJS, appendGuard, hm, hjs, hiff, hcond, Msg.toJS]

/-- The coarse settlement model is the restriction of the refined one to
rejected and well-shaped fulfilled outcomes. -/
theorem sendMessageJS_refines (st : ChatState) (text : String)
    (result : Option ChatResponse) :
    sendMessageJS (ChatState.toJS st) text (toOutcome result) =
      (ChatState.toJS (sendMessage st text result).1, (sendMessage st text result).2) := by
  by_cases htrim : jsTrim text = ""
  · rw [sendMessage_dropped_empty st text result htrim]
    simp [sendMessageJS, htrim, ChatState.toJS]
  · cases hload : st.loading with
    | true =>
        rw [sendMessage_dropped_loading st text result hload]
        simp [sendMessageJS, ChatState.toJS, hload]
    | false =>
        cases result with
        | some resp =>
            simp [sendMessageJS, sendMessage, sendMessageStart, sendMessageResolve,
                  appendMessageJS, appendMessage, toOutcome, ChatState.toJS, Msg.toJS,
                  htrim, hload, appendGuardJS_map]
        | none =>
            simp [sendMessageJS, sendMessage, sendMessageStart, sendMessageResolve,
                  appendMessageJS, appendMessage, toOutcome, ChatState.toJS, Msg.toJS,
                  htrim, hload, appendGuardJS_map]

/-! ## Voice Session Controller (`useVoiceChat` hook) -/

/-- The hook's `VoiceStatus` union. -/
inductive VoiceStatus where
  | idle
  | connecting
  | ready
  | error
deriving DecidableEq, Repr

/-- Which of a recognition handle's callback slots (`onstart`, `onend`,
`onerror`, `onresult`) currently hold the hook's closures (`true`) rather
than `null` (`false`). -/
structure HandleCbs where
  hasOnstart : Bool
  hasOnend : Bool
  hasOnerror : Bool
  hasOnresult : Bool
deriving DecidableEq, Repr

/-- All four callback slots assigned (as `start` leaves a fresh handle). -/
def attachedCbs : HandleCbs := ⟨true, true, true, true⟩

/-- All four callback slots `null` (as `stop` leaves a discarded handle). -/
def detachedCbs : HandleCbs := ⟨false, false, false, false⟩

/-- The hook's state: `status`, `isRecording`, the `error` message state,
the `isRecordingRef` listening-intent ref, the `recognitionRef` current
handle (an index into `handles`, `none` for `null`), and the table of all
handles ever created with their callback-slot occupancy. -/
structure VoiceWorld where
  status : VoiceStatus
  isRecording : Bool
  error : Option String
  isRecordingRef : Bool
  recognitionRef : Option Nat
  handles : List HandleCbs
deriving DecidableEq, Repr

/-- The hook's initial state. -/
def voiceInitial : VoiceWorld := ⟨VoiceStatus.idle, false, none, false, none, []⟩

/-- Look up a handle's callback-slot occupancy; an index outside the table
behaves as fully detached (no closure can run there). -/
def getCbs : List HandleCbs → Nat → HandleCbs
  | [], _ => detachedCbs
  | c :: _, 0 => c
  | _ :: t, n + 1 => getCbs t n

/-- Overwrite a handle's callback-slot occupancy in the table. -/
def setCbsAt : List HandleCbs → Nat → HandleCbs → List HandleCbs
  | [], _, _ => []
  | _ :: t, 0, x => x :: t
  | c :: t, n + 1, x => c :: setCbsAt t n x

/-- Calls to the platform recognition object issued by the hook. -/
inductive PlatformAction where
  | start (h : Nat)
  | stop (h : Nat)
deriving DecidableEq, Repr

/-- The `recognition.onstart` closure: acknowledge capture. -/
def onstartHandler (w : VoiceWorld) : VoiceWorld :=
  { w with status := VoiceStatus.ready }

/-- The `recognition.onerror` closure.  `reason` is `some r` when the
platform event carries a truthy `error` field and `none` otherwise. -/
def onerrorHandler (w : VoiceWorld) (reason : Option String) : VoiceWorld :=
  let message := match reason with
    | some r => "Speech recognition error: " ++ r
    | none => "Speech recognition error"
  { w with
    error := some message
    status := VoiceStatus.error
    isRecordingRef := false
    isRecording := false }

/-- The `recognition.onend` closure, closed over handle `h`.  `restartOk`
is the outcome of the `recognition.start()` restart attempt (`false` when
it throws).  In the throwing branch the transient `connecting` status set
just before the attempt is immediately overwritten by `error`; the record
update below is the handler's net effect.  The returned action list
records every `recognition.start()` attempt, thrown or not. -/
def onendHandler (w : VoiceWorld) (h : Nat) (restartOk : Bool) :
    VoiceWorld × List PlatformAction :=
  if w.isRecordingRef = true then
    if restartOk then
      ({ w with status := VoiceStatus.connecting }, [PlatformAction.start h])
    else
      ({ w with
          error := some "Speech recognition stopped unexpectedly"
          status := VoiceStatus.error
          isRecordingRef := false
          isRecording := false }, [PlatformAction.start h])
  else
    ({ w with status := VoiceStatus.idle }, [])

/-- One recognition result item as the `onresult` loop reads it:
`result.isFinal` and `result[0].transcript`. -/
structure SRResult where
  isFinal : Bool
  transcript : String
deriving DecidableEq, Repr

/-- A platform `result` event: `resultIndex` and the `results` list. -/
structure SREvent where
  resultIndex : Nat
  results : List SRResult
deriving DecidableEq, Repr

/-- The `onresult` loop: starting from an accumulator, concatenate the
transcripts of the final results in order. -/
def collectFinal : List SRResult → String → String
  | [], acc => acc
  | r :: rs, acc => collectFinal rs (if r.isFinal then acc ++ r.transcript else acc)

/-- The `recognition.onresult` closure: concatenate the final transcripts
from `resultIndex` onward, trim the concatenation, and emit one
`onTranscription('user', finalText)` call when it is non-empty.  Returns
the (unchanged) state and the emissions. -/
def onresultHandler (w : VoiceWorld) (ev : SREvent) :
    VoiceWorld × List (String × String) :=
  let finalText := jsTrim (collectFinal (ev.results.drop ev.resultIndex) "")
  if finalText = "" then (w, []) else (w, [("user", finalText)])

/-- `stop()` from the hook: clear the listening intent and `isRecording`,
set status `idle`, take the current handle out of `recognitionRef`, and if
there was one, null out its four callback slots and request platform stop
(whose exceptions are swallowed). -/
def stop (w : VoiceWorld) : VoiceWorld × List PlatformAction :=
  let w1 := { w with
    isRecordingRef := false
    isRecording := false
    status := VoiceStatus.idle }
  match w1.recognitionRef with
  | none => ({ w1 with recognitionRef := none }, [])
  | some h =>
      ({ w1 with
          recognitionRef := none
          handles := setCbsAt w1.handles h detachedCbs },
       [PlatformAction.stop h])

/-- `error` message set when the host lacks speech recognition. -/
def capUnavailableMsg : String := "Speech recognition is not supported in this browser"

/-- `error` message set when the initial `recognition.start()` throws. -/
def startFailedMsg : String := "Failed to start speech recognition"

/-- `start()` from the hook.  `capAvailable` models whether the host has a
`SpeechRecognition` constructor; `startOk` the outcome of the initial
`recognition.start()` call.  Early-returns when a handle exists or the
listening intent is set; otherwise creates a fresh fully-attached handle,
clears `error`, moves to `connecting`, raises the recording flags, and
requests platform start — resetting everything but the handle table entry
if that throws. -/
def start (w : VoiceWorld) (capAvailable : Bool) (startOk : Bool) :
    VoiceWorld × List PlatformAction :=
  if w.recognitionRef.isSome = true ∨ w.isRecordingRef = true then (w, [])
  else if capAvailable = false then
    ({ w with error := some capUnavailableMsg, status := VoiceStatus.error }, [])
  else
    let h := w.handles.length
    let w1 := { w with
      handles := w.handles ++ [attachedCbs]
      error := none
      status := VoiceStatus.connecting
      isRecording := true
      isRecordingRef := true
      recognitionRef := some h }
    if startOk then (w1, [PlatformAction.start h])
    else
      ({ w1 with
          error := some startFailedMsg
          status := VoiceStatus.error
          isRecordingRef := false
          isRecording := false
          recognitionRef := none }, [PlatformAction.start h])

/-- The platform delivering a `result` signal to handle `h`: it invokes
whatever is stored in that handle's `onresult` slot; a nulled slot runs
nothing. -/
def deliverResult (w : VoiceWorld) (h : Nat) (ev : SREvent) :
    VoiceWorld × List (String × String) :=
  if (getCbs w.handles h).hasOnresult = true then onresultHandler w ev else (w, [])

/-- The platform delivering an `ended` signal to handle `h`. -/
def deliverEnded (w : VoiceWorld) (h : Nat) (restartOk : Bool) :
    VoiceWorld × List PlatformAction :=
  if (getCbs w.handles h).hasOnend = true then onendHandler w h restartOk else (w, [])

/-- The platform delivering an `error` signal to handle `h`. -/
def deliverError (w : VoiceWorld) (h : Nat) (reason : Option String) : VoiceWorld :=
  if (getCbs w.handles h).hasOnerror = true then onerrorHandler w reason else w

/-- The platform delivering a `started` signal to handle `h`. -/
def deliverStarted (w : VoiceWorld) (h : Nat) : VoiceWorld :=
  if (getCbs w.handles h).hasOnstart = true then onstartHandler w else w

/-! ### Controller lemmas -/

theorem getCbs_setCbsAt_self (l : List HandleCbs) (n : Nat) (x : HandleCbs) :
    getCbs (setCbsAt l n x) n = if n < l.length then x else detachedCbs := by
  induction l generalizing n with
  | nil => simp [setCbsAt, getCbs]
  | cons c t ih =>
      cases n with
      | zero => simp [setCbsAt, getCbs]
      | succ k => simpa [setCbsAt, getCbs, Nat.succ_lt_succ_iff] using ih k

theorem getCbs_detach (l : List HandleCbs) (n : Nat) :
    getCbs (setCbsAt l n detachedCbs) n = detachedCbs := by
  rw [getCbs_setCbsAt_self]
  split <;> rfl

/-- Concatenation of a list of strings in order. -/
def concatAll : List String → String
  | [] => ""
  | s :: rest => s ++ concatAll rest

theorem collectFinal_eq (l : List SRResult) (acc : String) :
    collectFinal l acc =
      acc ++ concatAll ((l.filter fun r => r.isFinal).map fun r => r.transcript) := by
  induction l generalizing acc with
  | nil => simp [collectFinal, concatAll]
  | cons r rs ih =>
      cases hf : r.isFinal with
      | true => simp [collectFinal, hf, ih, concatAll, String.append_assoc]
      | false => simp [collectFinal, hf, ih, concatAll]

/-! ## Claims about the Conversation Pipeline -/

/-- C1: in every reachable page state (where, by the invariant, no backend
request is outstanding between handler turns), submitting an utterance
that is non-empty after trimming issues exactly one backend call carrying
the trimmed text and the session id, and appends exactly two transcript
entries, contiguous and in order: a `user` entry with the trimmed text,
then an `assistant` entry built from the reply text and optional sources
list of the response. -/
theorem claim1_single_exchange {sid : String} {st : ChatState} (hst : Reachable sid st)
    (text : String) (htrim : jsTrim text ≠ "") (resp : ChatResponse) :
    sendMessage st text (some resp) =
      ({ st with
          input := ""
          loading := false
          messages := st.messages ++
            [Msg.mk Role.user (jsTrim text) none,
             Msg.mk Role.assistant resp.response resp.sources] },
       [BackendCall.mk (jsTrim text) sid]) := by
  obtain ⟨hload, hsid, m, hm, hrole⟩ := reachable_inv hst
  have h := sendMessage_run st text (some resp) m hload htrim hm hrole
  rw [h, hsid]
  rfl

/-- Witness for C1: the initial state, the utterance `" hi "`, and a
response with one source. -/
theorem claim1_witness :
    sendMessage (initState "s") " hi " (some (ChatResponse.mk "yo" (some ["glossary"]))) =
      (ChatState.mk
        [greeting, Msg.mk Role.user "hi" none,
         Msg.mk Role.assistant "yo" (some ["glossary"])] "" false "s",
       [BackendCall.mk "hi" "s"]) := by
  rw [@claim1_single_exchange "s" (initState "s") Reachable.init " hi " (by decide)
      (ChatResponse.mk "yo" (some ["glossary"]))]
  decide

/-- C2: the `loadingRef` single-flight guard.  First conjunct: in any
state with a request outstanding, a `sendMessage` call is a complete no-op
— state (hence transcript) unchanged, no backend call issued, nothing
queued or reported.  Second conjunct: in the state left by the resolution
of the outstanding call, a subsequent non-blank submission issues exactly
one backend call again. -/
theorem claim2_single_flight :
    (∀ (st : ChatState) (text : String) (result : Option ChatResponse),
        st.loading = true → sendMessage st text result = (st, [])) ∧
    (∀ (st : ChatState) (r1 : Option ChatResponse) (text : String)
        (r2 : Option ChatResponse), jsTrim text ≠ "" →
        (sendMessage (sendMessageResolve st r1) text r2).2 =
          [BackendCall.mk (jsTrim text) st.sessionId]) := by
  constructor
  · exact fun st text result h => sendMessage_dropped_loading st text result h
  · intro st r1 text r2 htrim
    rw [sendMessage_calls _ text r2 (sendMessageResolve_loading st r1) htrim,
        sendMessageResolve_sessionId]

/-- Witness for C2: a mid-flight state drops a submission unchanged, and
after resolution the next submission issues its call. -/
theorem claim2_witness :
    sendMessage (ChatState.mk [greeting] "" true "s") "hi" none =
      (ChatState.mk [greeting] "" true "s", []) ∧
    (sendMessage (sendMessageResolve (ChatState.mk [greeting] "" true "s") none) "hi" none).2 =
      [BackendCall.mk "hi" "s"] := by
  constructor
  · exact claim2_single_flight.1 (ChatState.mk [greeting] "" true "s") "hi" none rfl
  · exact (claim2_single_flight.2 (ChatState.mk [greeting] "" true "s") none "hi" none
      (by decide)).trans (by decide)

/-- C3: the adjacent-duplicate guard.  First conjunct: appending a `user`
entry whose role and content equal the immediately preceding transcript
entry is a no-op on the state.  Second conjunct: in any reachable state, a
non-blank submission appends its `user` entry once, and an identical
second submission arriving while the first is still outstanding is a
complete no-op, so the `user` entry is appended only once. -/
theorem claim3_duplicate_guard :
    (∀ (st : ChatState) (c : String) (srcs : Option (List String)),
        st.messages.getLast? = some (Msg.mk Role.user c srcs) →
        appendMessage st Role.user c = st) ∧
    (∀ (sid : String) (st : ChatState) (text : String),
        Reachable sid st → jsTrim text ≠ "" →
        (sendMessageStart st text).1.messages =
          st.messages ++ [Msg.mk Role.user (jsTrim text) none] ∧
        sendMessageStart (sendMessageStart st text).1 text =
          ((sendMessageStart st text).1, [])) := by
  constructor
  · intro st c srcs hlast
    have hg := appendGuard_of_eq st.messages (Msg.mk Role.user c srcs) Role.user c hlast rfl rfl
    simp [appendMessage, hg]
  · intro sid st text hst htrim
    obtain ⟨hload, hsid, m, hm, hrole⟩ := reachable_inv hst
    have h := sendMessageStart_run st text m hload htrim hm hrole
    constructor
    · simp [h]
    · have hload1 : (sendMessageStart st text).1.loading = true := by rw [h]
      exact sendMessageStart_dropped_loading _ text hload1

/-- Witness for C3: a duplicate-adjacent append is dropped, and the
second of two back-to-back identical submissions is dropped. -/
theorem claim3_witness :
    appendMessage (ChatState.mk [Msg.mk Role.user "hi" none] "" false "s") Role.user "hi" =
      ChatState.mk [Msg.mk Role.user "hi" none] "" false "s" ∧
    sendMessageStart ((sendMessageStart (initState "s") "hi").1) "hi" =
      ((sendMessageStart (initState "s") "hi").1, []) := by
  constructor
  · exact claim3_duplicate_guard.1 (ChatState.mk [Msg.mk Role.user "hi" none] "" false "s")
      "hi" none rfl
  · exact (claim3_duplicate_guard.2 "s" (initState "s") "hi" Reachable.init (by decide)).2

/-- C7 counterexample: the claim counts a malformed payload among the
failures that yield the fixed fallback, but axios fulfills every
success-status response whatever its body, the `catch` never runs, and
the success path appends an assistant entry carrying the `undefined`
property reads — the fixed fallback entry is appended nowhere.
Concretely: submitting `"What is a deductible?"` from the initial page
state against a fulfilled empty-shaped payload. -/
theorem claim7_counterexample :
    sendMessageJS (ChatState.toJS (initState "s")) "What is a deductible?"
        (BackendOutcome.fulfilled (ChatPayload.mk none none)) =
      (ChatStateJS.mk
        [MsgJS.mk Role.assistant (some greeting.content) none,
         MsgJS.mk Role.user (some "What is a deductible?") none,
         MsgJS.mk Role.assistant none none] "" false "s",
       [BackendCall.mk "What is a deductible?" "s"]) ∧
    MsgJS.mk Role.assistant (some fallbackText) none ∉
      (sendMessageJS (ChatState.toJS (initState "s")) "What is a deductible?"
        (BackendOutcome.fulfilled (ChatPayload.mk none none))).1.messages := by
  decide

/-- C7 (amended): in every reachable page state, a non-blank submission
whose backend call rejects — a network error or a non-success status, the
cases in which the client throws — issues exactly that one call (no
automatic retry), appends the `user` entry and then exactly one fixed
fallback `assistant` entry, and clears the outstanding flag;
`sendMessageJS` is a total function of the settlement, so no exception
reaches the caller of `sendMessage`. -/
theorem claim7_rejected_fallback {sid : String} {st : ChatState} (hst : Reachable sid st)
    (text : String) (htrim : jsTrim text ≠ "") :
    sendMessageJS (ChatState.toJS st) text BackendOutcome.rejected =
      (ChatState.toJS { st with
          input := ""
          loading := false
          messages := st.messages ++
            [Msg.mk Role.user (jsTrim text) none,
             Msg.mk Role.assistant fallbackText none] },
       [BackendCall.mk (jsTrim text) sid]) := by
  obtain ⟨hload, hsid, m, hm, hrole⟩ := reachable_inv hst
  have hrun := sendMessage_run st text none m hload htrim hm hrole
  have hbr := sendMessageJS_refines st text none
  rw [show BackendOutcome.rejected = toOutcome none from rfl, hbr, hrun, hsid]
  rfl

/-- Witness for C7: a rejected call from the initial state. -/
theorem claim7_witness :
    sendMessageJS (ChatState.toJS (initState "s")) "boom" BackendOutcome.rejected =
      (ChatStateJS.mk
        [MsgJS.mk Role.assistant (some greeting.content) none,
         MsgJS.mk Role.user (some "boom") none,
         MsgJS.mk Role.assistant (some fallbackText) none] "" false "s",
       [BackendCall.mk "boom" "s"]) := by
  rw [@claim7_rejected_fallback "s" (initState "s") Reachable.init "boom" (by decide)]
  decide

/-- C8: submitting a string that is empty or whitespace-only (trims to the
empty string) is a complete no-op in any state: no transcript entry, no
backend call, no error — the pair returned is the unchanged state with an
empty call list. -/
theorem claim8_blank_dropped (st : ChatState) (text : String)
    (result : Option ChatResponse) (h : jsTrim text = "") :
    sendMessage st text result = (st, []) :=
  sendMessage_dropped_empty st text result h

/-- Witness for C8: a whitespace-only submission from the initial state. -/
theorem claim8_witness :
    sendMessage (initState "s") "   " none = (initState "s", []) :=
  claim8_blank_dropped (initState "s") "   " none (by decide)

/-! ## Claims about the Voice Session Controller -/

/-- Emission behaviour the spec wording ascribes to a `result` signal, for
comparison with the source handler: one `onTranscription` invocation per
finalized utterance, each individually trimmed and dropped when blank. -/
def onresultSpecPerUtterance (ev : SREvent) : List (String × String) :=
  ((ev.results.drop ev.resultIndex).filter fun r => r.isFinal).filterMap
    fun r => if jsTrim r.transcript = "" then none
             else some ("user", jsTrim r.transcript)

/-- C4 counterexample: a `result` signal carrying two finalized utterances
`"hello "` and `" world"`.  The claim calls for two invocations with the
individually trimmed texts `"hello"` and `"world"`; the handler invokes
the callback once, with the trim of the concatenation, `"hello  world"`. -/
theorem claim4_counterexample :
    (onresultHandler voiceInitial
        (SREvent.mk 0 [SRResult.mk true "hello ", SRResult.mk true " world"])).2 =
      [("user", "hello  world")] ∧
    onresultSpecPerUtterance
        (SREvent.mk 0 [SRResult.mk true "hello ", SRResult.mk true " world"]) =
      [("user", "hello"), ("user", "world")] ∧
    (onresultHandler voiceInitial
        (SREvent.mk 0 [SRResult.mk true "hello ", SRResult.mk true " world"])).2 ≠
      onresultSpecPerUtterance
        (SREvent.mk 0 [SRResult.mk true "hello ", SRResult.mk true " world"]) := by
  decide

/-- C4 amended: on a `result` signal the handler concatenates, in order,
the transcripts of the finalized utterances from `resultIndex` onward
(interim results contribute nothing), trims the concatenation, and invokes
`onTranscription` exactly once, with role `user` and that trimmed
concatenation, when it is non-empty — and not at all otherwise; the
controller state, hence its status, does not change. -/
theorem claim4_one_emission_per_event (w : VoiceWorld) (ev : SREvent) :
    (onresultHandler w ev).1 = w ∧
    (onresultHandler w ev).2 =
      (if jsTrim (concatAll (((ev.results.drop ev.resultIndex).filter
            fun r => r.isFinal).map fun r => r.transcript)) = "" then []
       else [("user", jsTrim (concatAll (((ev.results.drop ev.resultIndex).filter
            fun r => r.isFinal).map fun r => r.transcript)))]) := by
  have hc : collectFinal (ev.results.drop ev.resultIndex) "" =
      concatAll (((ev.results.drop ev.resultIndex).filter
        fun r => r.isFinal).map fun r => r.transcript) := by
    rw [collectFinal_eq]
    simp
  constructor
  · simp only [onresultHandler]
    split <;> rfl
  · simp only [onresultHandler, hc]
    split <;> rfl

/-- C5: behaviour of the `onend` closure.  With listening intent still
set and the restart attempt succeeding, the handler moves status to
`connecting` and requests exactly one platform start; with intent set and
the restart attempt throwing, it ends in `error`, clears the intent and the
recording flag, and the action list still holds exactly the one attempted
start — no further restart.  Status ends at `idle` exactly when the intent
was already cleared. -/
theorem claim5_ended_restart (w : VoiceWorld) (h : Nat) (restartOk : Bool) :
    (w.isRecordingRef = true → restartOk = true →
        onendHandler w h restartOk =
          ({ w with status := VoiceStatus.connecting }, [PlatformAction.start h])) ∧
    (w.isRecordingRef = true → restartOk = false →
        onendHandler w h restartOk =
          ({ w with
              error := some "Speech recognition stopped unexpectedly"
              status := VoiceStatus.error
              isRecordingRef := false
              isRecording := false }, [PlatformAction.start h])) ∧
    ((onendHandler w h restartOk).1.status = VoiceStatus.idle ↔
      w.isRecordingRef = false) := by
  refine ⟨?_, ?_, ?_⟩
  · intro hi hr
    simp [onendHandler, hi, hr]
  · intro hi hr
    simp [onendHandler, hi, hr]
  · cases hi : w.isRecordingRef with
    | false => simp [onendHandler, hi]
    | true => cases hr : restartOk <;> simp [onendHandler, hi, hr]

/-- Witness for C5: both intent-set branches at a concrete ready state,
and the idle equivalence at a concrete stopped state. -/
theorem claim5_witness :
    onendHandler (VoiceWorld.mk VoiceStatus.ready true none true (some 0) [attachedCbs])
        0 true =
      (VoiceWorld.mk VoiceStatus.connecting true none true (some 0) [attachedCbs],
       [PlatformAction.start 0]) ∧
    onendHandler (VoiceWorld.mk VoiceStatus.ready true none true (some 0) [attachedCbs])
        0 false =
      (VoiceWorld.mk VoiceStatus.error false
        (some "Speech recognition stopped unexpectedly") false (some 0) [attachedCbs],
       [PlatformAction.start 0]) ∧
    ((onendHandler (VoiceWorld.mk VoiceStatus.ready false none false none []) 0
        true).1.status = VoiceStatus.idle ↔
      (VoiceWorld.mk VoiceStatus.ready false none false none []).isRecordingRef = false) := by
  refine ⟨?_, ?_, ?_⟩
  · exact (claim5_ended_restart
      (VoiceWorld.mk VoiceStatus.ready true none true (some 0) [attachedCbs]) 0 true).1
      rfl rfl
  · exact (claim5_ended_restart
      (VoiceWorld.mk VoiceStatus.ready true none true (some 0) [attachedCbs]) 0 false).2.1
      rfl rfl
  · exact (claim5_ended_restart
      (VoiceWorld.mk VoiceStatus.ready false none false none []) 0 true).2.2

/-- C6: `stop()` nulls out all four callback slots of the handle it
discards, so delivery of any late platform signal to that handle runs
nothing: a `result` signal yields no `onTranscription` emission (hence no
transcript mutation) and leaves the state — in particular the status —
unchanged, and `ended`, `error` and `started` signals are likewise inert. -/
theorem claim6_stop_detaches (w : VoiceWorld) (h : Nat) (hw : w.recognitionRef = some h)
    (ev : SREvent) (restartOk : Bool) (reason : Option String) :
    getCbs (stop w).1.handles h = detachedCbs ∧
    deliverResult (stop w).1 h ev = ((stop w).1, []) ∧
    deliverEnded (stop w).1 h restartOk = ((stop w).1, []) ∧
    deliverError (stop w).1 h reason = (stop w).1 ∧
    deliverStarted (stop w).1 h = (stop w).1 := by
  have hstop : (stop w).1.handles = setCbsAt w.handles h detachedCbs := by
    simp [stop, hw]
  have hdet : getCbs (stop w).1.handles h = detachedCbs := by
    rw [hstop]
    exact getCbs_detach w.handles h
  refine ⟨hdet, ?_, ?_, ?_, ?_⟩ <;>
    simp [deliverResult, deliverEnded, deliverError, deliverStarted, hdet, detachedCbs]

/-- Witness for C6: stopping a live session and delivering a late final
result to the discarded handle. -/
theorem claim6_witness :
    getCbs (stop (VoiceWorld.mk VoiceStatus.ready true none true (some 0)
        [attachedCbs])).1.handles 0 = detachedCbs ∧
    deliverResult (stop (VoiceWorld.mk VoiceStatus.ready true none true (some 0)
        [attachedCbs])).1 0 (SREvent.mk 0 [SRResult.mk true "late"]) =
      ((stop (VoiceWorld.mk VoiceStatus.ready true none true (some 0)
        [attachedCbs])).1, []) := by
  have h := claim6_stop_detaches
    (VoiceWorld.mk VoiceStatus.ready true none true (some 0) [attachedCbs]) 0 rfl
    (SREvent.mk 0 [SRResult.mk true "late"]) true none
  exact ⟨h.1, h.2.1⟩

/-- C9 counterexample: after `start()` on a host without speech
recognition, the state has no handle and status `error`; `stop()` then
changes the status to `idle`, refuting the claim that the status is
unchanged when `stop()` runs with no active handle. -/
theorem claim9_counterexample :
    (start voiceInitial false true).1.recognitionRef = none ∧
    (start voiceInitial false true).1.status = VoiceStatus.error ∧
    (stop (start voiceInitial false true).1).1.status = VoiceStatus.idle ∧
    ¬ (stop (start voiceInitial false true).1).1.status =
        (start voiceInitial false true).1.status := by
  decide

/-- C9 amended: `stop()` with no active handle issues no platform call,
leaves `lastError` unchanged, clears the listening intent and the
recording flag, and unconditionally sets status to `idle` (so it is a full
no-op exactly on states already cleared); and `stop()` is idempotent — a
second `stop()` right after a first returns the state unchanged and
performs no platform action. -/
theorem claim9_stop_no_handle (w : VoiceWorld) :
    (w.recognitionRef = none →
        stop w = ({ w with
            isRecordingRef := false
            isRecording := false
            status := VoiceStatus.idle
            recognitionRef := none }, [])) ∧
    stop ((stop w).1) = ((stop w).1, []) := by
  constructor
  · intro hw
    simp [stop, hw]
  · cases hw : w.recognitionRef <;> simp [stop, hw]

/-- Witness for C9: the idle initial state, on which `stop()` is a full
no-op, twice over. -/
theorem claim9_witness :
    stop voiceInitial = (voiceInitial, []) ∧
    stop ((stop voiceInitial).1) = ((stop voiceInitial).1, []) := by
  have h := claim9_stop_no_handle voiceInitial
  exact ⟨h.1 rfl, h.2⟩

/-- C10: the `onerror` closure keeps the recognition handle in
`recognitionRef` and clears only the listening intent, so a `start()` call
with no intervening `stop()` early-returns as a complete no-op — state
identical (no new handle, `lastError` kept, status unchanged) and no
platform action — whatever the capability and start outcomes; calling
`stop()` first and then `start()` does create a handle and moves to
`connecting`. -/
theorem claim10_error_blocks_start (w : VoiceWorld) (h : Nat)
    (hw : w.recognitionRef = some h) (reason : Option String) (cap startOk : Bool) :
    (onerrorHandler w reason).recognitionRef = some h ∧
    (onerrorHandler w reason).isRecordingRef = false ∧
    start (onerrorHandler w reason) cap startOk = (onerrorHandler w reason, []) ∧
    (start ((stop (onerrorHandler w reason)).1) true true).1.recognitionRef =
      some ((stop (onerrorHandler w reason)).1.handles.length) ∧
    (start ((stop (onerrorHandler w reason)).1) true true).1.status =
      VoiceStatus.connecting := by
  have h1 : (onerrorHandler w reason).recognitionRef = some h := by
    simp [onerrorHandler, hw]
  have h2 : (stop (onerrorHandler w reason)).1.recognitionRef = none := by
    simp [stop, h1]
  have h3 : (stop (onerrorHandler w reason)).1.isRecordingRef = false := by
    simp [stop, h1]
  refine ⟨h1, rfl, ?_, ?_, ?_⟩
  · simp [start, h1]
  · simp [start, h2, h3]
  · simp [start, h2, h3]

/-- Witness for C10: a ready session whose platform reports `no-speech`;
`start()` right after is inert, `stop()` then `start()` reconnects. -/
theorem claim10_witness :
    start (onerrorHandler (VoiceWorld.mk VoiceStatus.ready true none true (some 0)
        [attachedCbs]) (some "no-speech")) true true =
      (onerrorHandler (VoiceWorld.mk VoiceStatus.ready true none true (some 0)
        [attachedCbs]) (some "no-speech"), []) ∧
    (start ((stop (onerrorHandler (VoiceWorld.mk VoiceStatus.ready true none true (some 0)
        [attachedCbs]) (some "no-speech"))).1) true true).1.status =
      VoiceStatus.connecting := by
  have h := claim10_error_blocks_start
    (VoiceWorld.mk VoiceStatus.ready true none true (some 0) [attachedCbs]) 0 rfl
    (some "no-speech") true true
  exact ⟨h.2.2.1, h.2.2.2.2⟩

end LunatiX
